import Mathlib

/-!
Verification of the structured-extraction core of the `provider_vault`
AI service (`apps/ai_service/ai_engine.py`).

The Python string methods used by the source (`strip`, `split`,
`startswith`, `replace`, `lower`, `lstrip`) are embedded as executable
character-list functions (`pyStrip`, `pySplit`, ...) so that every
definition evaluates inside the kernel.  Dictionaries returned by the
task entry points are embedded as insertion-ordered association lists
from string keys to a `Value` type mirroring the JSON-like payloads.
The OpenAI completion calls and the database accessors are opaque,
potentially failing collaborators; they enter the embedding as
`Except String _` parameters (the `Except.error` case is the Python
exception the source catches).
-/

/-- Characters treated as whitespace by Python `str.strip`. -/
def pySpace (c : Char) : Bool :=
  c = ' ' || c = '\t' || c = '\n' || c = '\r' || c = '\x0b' || c = '\x0c'

/-- Trim `pySpace` characters from both ends of a character list. -/
def trimChars (l : List Char) : List Char :=
  ((l.dropWhile pySpace).reverse.dropWhile pySpace).reverse

/-- Python `s.strip()`. -/
def pyStrip (s : String) : String := String.mk (trimChars s.data)

/-- Split a character list at every occurrence of `sep`
(Python single-character `str.split`): returns the first group and the
remaining groups, so the full result `g :: gs` is always non-empty. -/
def splitChar (sep : Char) : List Char → List Char × List (List Char)
  | [] => ([], [])
  | c :: cs =>
    let r := splitChar sep cs
    if c = sep then ([], r.1 :: r.2) else (c :: r.1, r.2)

/-- Python `s.split(sep)` for a one-character separator. -/
def pySplit (sep : Char) (s : String) : List String :=
  let r := splitChar sep s.data
  (r.1 :: r.2).map String.mk

/-- `leadsWith pat l` is true when `l` begins with `pat`. -/
def leadsWith : List Char → List Char → Bool
  | [], _ => true
  | _ :: _, [] => false
  | p :: ps, c :: cs => p = c && leadsWith ps cs

/-- Python `s.startswith(pat)`. -/
def pyStartsWith (s pat : String) : Bool := leadsWith pat.data s.data

/-- ASCII lower-casing of one character. -/
def asciiLower (c : Char) : Char :=
  if 'A' ≤ c ∧ c ≤ 'Z' then Char.ofNat (c.toNat + 32) else c

/-- Python `s.lower()` (the source only lower-cases ASCII tags). -/
def pyLower (s : String) : String := String.mk (s.data.map asciiLower)

/-- Strip `pat` from the front of a list, or fail. -/
def stripPat : List Char → List Char → Option (List Char)
  | [], l => some l
  | _ :: _, [] => none
  | p :: ps, c :: cs => if c = p then stripPat ps cs else none

/-- Fuelled engine for `pyReplace`: replace every non-overlapping
occurrence of `pat`, scanning left to right. -/
def replaceFuel (pat rep : List Char) : Nat → List Char → List Char
  | 0, l => l
  | _ + 1, [] => []
  | fuel + 1, c :: cs =>
    match stripPat pat (c :: cs) with
    | some rest => rep ++ replaceFuel pat rep fuel rest
    | none => c :: replaceFuel pat rep fuel cs

/-- Python `s.replace(pat, rep)` (for the non-empty patterns the source
uses, the fuel `s.length` is never exhausted). -/
def pyReplace (s pat rep : String) : String :=
  String.mk (replaceFuel pat.data rep.data s.data.length s.data)

/-- Python `s.lstrip(cs)`: drop leading characters belonging to the set. -/
def pyLstrip (cs : List Char) (s : String) : String :=
  String.mk (s.data.dropWhile (fun c => c ∈ cs))

/-- Join groups with a separator (used to model Python `split(sep, 1)`:
the tail groups are re-joined to recover everything after the first
separator). -/
def joinWith (sep : List Char) : List (List Char) → List Char
  | [] => []
  | [g] => g
  | g :: g2 :: gs => g ++ sep ++ joinWith sep (g2 :: gs)

/-- First character of a non-empty string, `'\x00'` otherwise (only used
behind a non-emptiness guard, mirroring Python `line[0]`). -/
def firstChar (s : String) : Char :=
  match s.data with
  | [] => '\x00'
  | c :: _ => c

/-- A provider row as returned by `db_client` (`npi` is the unique
identifier used for deduplication). -/
structure Provider where
  npi : String
  name : String
  specialty : String
  state : String
  city : String
deriving DecidableEq

/-- One conversation turn of the FAQ chatbot. -/
structure Msg where
  role : String
  content : String
deriving DecidableEq

/-- JSON-like values stored in the result dictionaries. -/
inductive Value where
  | vStr : String → Value
  | vList : List String → Value
  | vProviders : List Provider → Value
  | vMsgs : List Msg → Value
  | vNat : Nat → Value
  | vNull : Value
deriving DecidableEq

/-- Dictionary lookup on an insertion-ordered association list. -/
def getVal : List (String × Value) → String → Option Value
  | [], _ => none
  | (k, v) :: rest, key => if k = key then some v else getVal rest key

/-- Python `d[k] = v` on an insertion-ordered association list: update in
place when the key exists, append otherwise. -/
def setKey : List (String × Value) → String → Value → List (String × Value)
  | [], k, v => [(k, v)]
  | (k0, v0) :: rest, k, v =>
    if k0 = k then (k, v) :: rest else (k0, v0) :: setKey rest k v

/-- `[s.strip() for s in text.split(',')]` — the comma-split idiom used
for `SPECIALTIES` and `KEY_TERMS` lines. -/
def commaSplitTrim (s : String) : List String :=
  (pySplit ',' s).map pyStrip

/-- Fields accumulated while parsing a triage completion
(`recommend_provider_by_symptoms`, lines 286-301 of `ai_engine.py`). -/
structure TriageParse where
  specialties : List String
  reasoning : String
  urgency : String
  emergency_action : Option String
deriving DecidableEq

/-- Initial values of the triage parse variables
(`specialties = []`, `reasoning = ""`, `urgency = "medium"`,
`emergency_action = None`). -/
def triageDefaults : TriageParse :=
  { specialties := [], reasoning := "", urgency := "medium",
    emergency_action := none }

/-- One iteration of the triage parsing loop. -/
def parseTriageLine (acc : TriageParse) (rawLine : String) : TriageParse :=
  let line := pyStrip rawLine
  if pyStartsWith line "SPECIALTIES:" then
    let sp := commaSplitTrim (pyStrip (pyReplace line "SPECIALTIES:" ""))
    { acc with specialties := sp }
  else if pyStartsWith line "REASONING:" then
    { acc with reasoning := pyStrip (pyReplace line "REASONING:" "") }
  else if pyStartsWith line "URGENCY:" then
    { acc with urgency := pyLower (pyStrip (pyReplace line "URGENCY:" "")) }
  else if pyStartsWith line "EMERGENCY_ACTION:" then
    let ea := pyStrip (pyReplace line "EMERGENCY_ACTION:" "")
    { acc with emergency_action := some ea }
  else acc

/-- The triage parsing loop over the (already stripped) completion text. -/
def parseTriage (content : String) : TriageParse :=
  (pySplit '\n' content).foldl parseTriageLine triageDefaults

/-- Disclaimer attached to every successful triage result. -/
def triageDisclaimer : String :=
  "‚ö†Ô∏è This is not medical advice. Always consult with a qualified healthcare provider for proper diagnosis and treatment."

/-- Disclaimer attached to the triage error payload. -/
def triageErrorDisclaimer : String :=
  "‚ö†Ô∏è System error. Please consult a healthcare provider directly."

/-- `recommend_provider_by_symptoms(symptoms, location_state)`.
`completion` is the outcome of the OpenAI call (the symptom text only
influences that call), and `stateProviders` is the outcome of
`db_client.get_providers_by_state(location_state, limit=50)`. -/
def recommend_provider_by_symptoms (completion : Except String String)
    (location_state : Option String)
    (stateProviders : Except String (List Provider)) :
    List (String × Value) :=
  match completion with
  | Except.error e =>
    [("error", Value.vStr ("Error processing symptoms: " ++ e)),
     ("recommended_specialties", Value.vList []),
     ("reasoning", Value.vStr ""),
     ("urgency_level", Value.vStr "unknown"),
     ("disclaimer", Value.vStr triageErrorDisclaimer)]
  | Except.ok raw =>
    let p := parseTriage (pyStrip raw)
    let eaValue : Value :=
      match p.emergency_action with
      | some s => if s = "N/A" then Value.vNull else Value.vStr s
      | none => Value.vNull
    let result : List (String × Value) :=
      [("recommended_specialties", Value.vList p.specialties),
       ("reasoning", Value.vStr p.reasoning),
       ("urgency_level", Value.vStr p.urgency),
       ("emergency_action", eaValue),
       ("disclaimer", Value.vStr triageDisclaimer),
       ("available_providers", Value.vProviders [])]
    match location_state, p.specialties with
    | some loc, primary :: _ =>
      if loc = "" then result
      else
        match stateProviders with
        | Except.ok provs =>
          let matching := provs.filter
            (fun pr => pyLower pr.specialty = pyLower primary)
          setKey (setKey result "available_providers"
              (Value.vProviders (matching.take 5)))
            "location_checked" (Value.vStr loc)
        | Except.error e =>
          setKey result "provider_search_error" (Value.vStr e)
    | _, _ => result

/-- Fields accumulated while parsing a semantic-search analysis
completion (`semantic_search_providers`, lines 407-421). -/
structure SearchParse where
  intent : String
  key_terms : List String
  specialties : List String
deriving DecidableEq

/-- Initial values of the semantic-search parse variables. -/
def searchDefaults : SearchParse :=
  { intent := "", key_terms := [], specialties := [] }

/-- One iteration of the semantic-search parsing loop. -/
def parseSearchLine (acc : SearchParse) (rawLine : String) : SearchParse :=
  let line := pyStrip rawLine
  if pyStartsWith line "INTENT:" then
    let it := pyStrip (pyReplace line "INTENT:" "")
    { acc with intent := it }
  else if pyStartsWith line "KEY_TERMS:" then
    let kt := commaSplitTrim (pyStrip (pyReplace line "KEY_TERMS:" ""))
    { acc with key_terms := kt }
  else if pyStartsWith line "SPECIALTIES:" then
    let sp := commaSplitTrim (pyStrip (pyReplace line "SPECIALTIES:" ""))
    { acc with specialties := sp }
  else acc

/-- The semantic-search parsing loop over the stripped completion text. -/
def parseSearch (content : String) : SearchParse :=
  (pySplit '\n' content).foldl parseSearchLine searchDefaults

/-- Per-specialty lookup loop of `semantic_search_providers`
(lines 424-431): extend `all_matches` with each successful
`get_providers_by_specialty` result, skip failing lookups. -/
def collectMatches (db : String → Except String (List Provider))
    (specs : List String) : List Provider :=
  specs.foldl (fun acc s =>
    match db s with
    | Except.ok provs => acc ++ provs
    | Except.error _ => acc) []

/-- One step of the deduplication loop (lines 433-439): the state is the
set of seen NPIs together with the unique providers in first-seen order. -/
def dedupStep (acc : List String × List Provider) (p : Provider) :
    List String × List Provider :=
  if p.npi ∈ acc.1 then acc else (p.npi :: acc.1, acc.2 ++ [p])

/-- The deduplication loop of `semantic_search_providers`. -/
def uniqueProviders (l : List Provider) : List Provider :=
  (l.foldl dedupStep ([], [])).2

/-- `semantic_search_providers(query, limit)`.  `completion` is the
outcome of the analysis call (the query text only influences that call)
and `db` maps a specialty name to the outcome of
`db_client.get_providers_by_specialty(specialty, limit=20)`. -/
def semantic_search_providers (completion : Except String String)
    (db : String → Except String (List Provider)) (limit : Nat) :
    List (String × Value) :=
  match completion with
  | Except.error e =>
    [("error", Value.vStr ("Error in semantic search: " ++ e)),
     ("understood_intent", Value.vStr ""),
     ("search_terms", Value.vList []),
     ("recommended_specialties", Value.vList []),
     ("providers", Value.vProviders []),
     ("total_found", Value.vNat 0)]
  | Except.ok raw =>
    let p := parseSearch (pyStrip raw)
    let all_matches := collectMatches db p.specialties
    let unique := uniqueProviders all_matches
    [("understood_intent", Value.vStr p.intent),
     ("search_terms", Value.vList p.key_terms),
     ("recommended_specialties", Value.vList p.specialties),
     ("providers", Value.vProviders (unique.take limit)),
     ("total_found", Value.vNat unique.length)]

/-- A referral suggestion parsed by `suggest_related_specialties`. -/
structure Suggestion where
  specialty : String
  reason : String
deriving DecidableEq

/-- The characters stripped from the front of a numbered/bulleted line
by `line.lstrip('0123456789.-) ')` (line 123). -/
def numberingChars : List Char :=
  ['0', '1', '2', '3', '4', '5', '6', '7', '8', '9', '.', '-', ')', ' ']

/-- One iteration of the list-variant parsing loop of
`suggest_related_specialties` (lines 119-129): keep lines that start
with a digit or a dash, strip numbering, split on the first colon into
name and reason, silently skip lines without a colon. -/
def parseSuggestionLine (acc : List Suggestion) (rawLine : String) :
    List Suggestion :=
  let line := pyStrip rawLine
  if line ≠ "" ∧ ((firstChar line).isDigit ∨ pyStartsWith line "-") then
    let clean_line := pyLstrip numberingChars line
    match pySplit ':' clean_line with
    | nm :: rest =>
      if rest ≠ [] then
        let reason := pyStrip (String.mk (joinWith [':'] (rest.map String.data)))
        acc ++ [{ specialty := pyStrip nm, reason := reason }]
      else acc
    | [] => acc
  else acc

/-- The parsing loop of `suggest_related_specialties` (lines 115-131),
keeping the first `count` suggestions. -/
def parseSuggestions (content : String) (count : Nat) : List Suggestion :=
  ((pySplit '\n' content).foldl parseSuggestionLine []).take count

/-- The characters stripped by `line.lstrip('-‚Ä¢ ')` in the follow-up
parsing of `faq_chatbot` (line 607; the bullet is the source file's
literal three-character sequence). -/
def bulletChars : List Char := ['-', '‚', 'Ä', '¢', ' ']

/-- Follow-up-suggestion parsing loop of `faq_chatbot` (lines 603-607). -/
def parseFollowUps (content : String) : List String :=
  (pySplit '\n' content).foldl (fun acc rawLine =>
    let line := pyStrip rawLine
    if line ≠ "" ∧ (pyStartsWith line "-" ∨ pyStartsWith line "‚Ä¢") then
      acc ++ [pyStrip (pyLstrip bulletChars line)]
    else acc) []

/-- Error payload of `faq_chatbot` (lines 626-633): the conversation
history handed back is the caller's own, unextended. -/
def faqErrorResult (e : String) (history : List Msg) (ctx : Value) :
    List (String × Value) :=
  [("answer", Value.vStr ("I apologize, but I encountered an error: " ++ e)),
   ("data_retrieved", ctx),
   ("follow_up_suggestions", Value.vList []),
   ("conversation_history", Value.vMsgs history),
   ("error", Value.vStr e)]

/-- `faq_chatbot(question, conversation_history)`.  `contextData` stands
for the opaque `context_data` dictionary assembled from the database,
`answerCompletion` for the main chat call and `followupCompletion` for
the follow-up-suggestion call; an exception in either call lands in the
single `except` block. -/
def faq_chatbot (question : String) (conversation_history : List Msg)
    (contextData : Value)
    (answerCompletion followupCompletion : Except String String) :
    List (String × Value) :=
  match answerCompletion with
  | Except.error e => faqErrorResult e conversation_history contextData
  | Except.ok ansRaw =>
    let answer := pyStrip ansRaw
    match followupCompletion with
    | Except.error e => faqErrorResult e conversation_history contextData
    | Except.ok fuRaw =>
      let follow_ups := parseFollowUps (pyStrip fuRaw)
      let updated0 := conversation_history ++
        [{ role := "user", content := question },
         { role := "assistant", content := answer }]
      let updated :=
        if updated0.length > 10 then updated0.drop (updated0.length - 10)
        else updated0
      [("answer", Value.vStr answer),
       ("data_retrieved", contextData),
       ("follow_up_suggestions", Value.vList (follow_ups.take 3)),
       ("conversation_history", Value.vMsgs updated)]

/-- Heap of Python list objects, used to express the frame property of
`faq_chatbot` on the caller's history list: references are indices into
the heap. -/
def readList (heap : List (List Msg)) (r : Nat) : List Msg := heap.getD r []

/-- Allocate a fresh Python list object holding `v`. -/
def allocList (heap : List (List Msg)) (v : List Msg) :
    List (List Msg) × Nat :=
  (heap ++ [v], heap.length)

/-- The history update of `faq_chatbot` (lines 609-617) as heap
operations: `conversation_history + [...]` allocates a fresh list, and
the slice `updated_history[-10:]` allocates another fresh list; the
caller's list object is never written. -/
def faqAdvanceAlloc (heap : List (List Msg)) (r : Nat)
    (question answer : String) : List (List Msg) × Nat :=
  let s1 := allocList heap (readList heap r ++
    [{ role := "user", content := question },
     { role := "assistant", content := answer }])
  let v1 := readList s1.1 s1.2
  if v1.length > 10 then allocList s1.1 (v1.drop (v1.length - 10)) else s1

/-- Deduplication as the spec words it: walk the concatenated candidates
keeping the first occurrence of each provider identifier, `seen` being
the identifiers already kept.  Compared against the source's
`uniqueProviders` loop below. -/
def dedupSpecFrom (seen : List String) : List Provider → List Provider
  | [] => []
  | p :: rest =>
    if p.npi ∈ seen then dedupSpecFrom seen rest
    else p :: dedupSpecFrom (p.npi :: seen) rest

theorem getVal_setKey_self (l : List (String × Value)) (k : String) (v : Value) :
    getVal (setKey l k v) k = some v := by
  induction l with
  | nil => simp [setKey, getVal]
  | cons hd tl ih =>
    obtain ⟨k0, v0⟩ := hd
    by_cases h : k0 = k <;> simp [setKey, getVal, h, ih]

theorem getVal_setKey_of_ne (l : List (String × Value)) (k key : String)
    (v : Value) (h : key ≠ k) : getVal (setKey l k v) key = getVal l key := by
  induction l with
  | nil => simp [setKey, getVal, Ne.symm h]
  | cons hd tl ih =>
    obtain ⟨k0, v0⟩ := hd
    by_cases h0 : k0 = k
    · subst h0
      simp [setKey, getVal, Ne.symm h]
    · simp [setKey, getVal, h0, ih]

theorem foldl_dedupStep (l : List Provider) :
    ∀ (seen : List String) (out : List Provider),
      (l.foldl dedupStep (seen, out)).2 = out ++ dedupSpecFrom seen l := by
  induction l with
  | nil => intro seen out; simp [dedupSpecFrom]
  | cons p rest ih =>
    intro seen out
    by_cases h : p.npi ∈ seen
    · simp [dedupStep, dedupSpecFrom, h, ih]
    · simp [dedupStep, dedupSpecFrom, h, ih]

theorem uniqueProviders_eq_spec (l : List Provider) :
    uniqueProviders l = dedupSpecFrom [] l := by
  simp [uniqueProviders, foldl_dedupStep]

theorem foldl_fixed {α β : Type} (f : α → β → α) (lines : List β)
    (h : ∀ x ∈ lines, ∀ acc, f acc x = acc) (a : α) :
    lines.foldl f a = a := by
  induction lines generalizing a with
  | nil => rfl
  | cons x xs ih =>
    rw [List.foldl_cons, h x (List.mem_cons_self x xs),
      ih (fun y hy acc => h y (List.mem_cons_of_mem x hy) acc)]

theorem getD_map {α β : Type} (f : α → β) (l : List α) (i : Nat) (d : α) :
    (l.map f).getD i (f d) = f (l.getD i d) := by
  induction l generalizing i with
  | nil => simp
  | cons x xs ih =>
    cases i with
    | zero => simp
    | succ j => simp [ih j]

/-- Claim C1, code bug: the claim (like the function's own docstring and
the comprehensive test) says `urgency_level` is always one of
`low`, `medium`, `high`, `emergency`; but the code copies an
unrecognized `URGENCY:` value through verbatim (lower-cased), and the
completion-failure payload carries `urgency_level = "unknown"` —
both outside the enumeration. -/
theorem urgency_level_escapes_enumeration :
    getVal (recommend_provider_by_symptoms (Except.ok "URGENCY: critical") none
        (Except.ok [])) "urgency_level" = some (Value.vStr "critical")
    ∧ getVal (recommend_provider_by_symptoms (Except.error "boom") none
        (Except.ok [])) "urgency_level" = some (Value.vStr "unknown")
    ∧ ("critical" : String) ∉ ["low", "medium", "high", "emergency"]
    ∧ ("unknown" : String) ∉ ["low", "medium", "high", "emergency"] :=
  ⟨rfl, rfl, by decide, by decide⟩

/-- Claim C2, counterexample: a completion whose `EMERGENCY_ACTION` value
is `n/a` (lower case) does not yield a null action — the code compares
against the sentinel `N/A` case-sensitively. -/
theorem emergency_action_lowercase_na_not_null :
    getVal (recommend_provider_by_symptoms (Except.ok "EMERGENCY_ACTION: n/a") none
        (Except.ok [])) "emergency_action" = some (Value.vStr "n/a")
    ∧ (some (Value.vStr "n/a") ≠ some Value.vNull) :=
  ⟨rfl, by decide⟩

/-- Claim C2 as amended: the `emergency_action` field is null exactly
when the completion has no `EMERGENCY_ACTION` line or the trimmed value
equals the sentinel `N/A` compared case-SENSITIVELY; any other casing is
passed through as a string. -/
theorem emergency_action_null_iff_exact_na (raw : String) :
    getVal (recommend_provider_by_symptoms (Except.ok raw) none (Except.ok []))
        "emergency_action" = some Value.vNull
    ↔ ((parseTriage (pyStrip raw)).emergency_action = none
       ∨ (parseTriage (pyStrip raw)).emergency_action = some "N/A") := by
  cases h : (parseTriage (pyStrip raw)).emergency_action with
  | none =>
    cases hs : (parseTriage (pyStrip raw)).specialties with
    | nil => simp [recommend_provider_by_symptoms, getVal, h, hs]
    | cons a l => simp [recommend_provider_by_symptoms, getVal, h, hs]
  | some s =>
    by_cases hna : s = "N/A" <;>
      cases hs : (parseTriage (pyStrip raw)).specialties with
    | nil => simp [recommend_provider_by_symptoms, getVal, h, hs, hna]
    | cons a l => simp [recommend_provider_by_symptoms, getVal, h, hs, hna]

/-- Claim C3, counterexample: when the completion call fails, the triage
error payload omits the declared `emergency_action` and
`available_providers` fields of the result shape entirely, so not every
declared field is present. -/
theorem triage_error_payload_omits_fields :
    getVal (recommend_provider_by_symptoms (Except.error "boom") none
        (Except.ok [])) "emergency_action" = none
    ∧ getVal (recommend_provider_by_symptoms (Except.error "boom") none
        (Except.ok [])) "available_providers" = none :=
  ⟨rfl, rfl⟩

/-- Claim C3 as amended: on completion failure every entry point returns
a structured payload (no exception escapes the embedding, which is
total) with the error surfaced as a string field and the remaining
fields defaulted; `semantic_search_providers` and `faq_chatbot` carry
every field of their declared result shapes, while the triage payload
carries defaulted `recommended_specialties`, `reasoning`,
`urgency_level` (the string `unknown`) and an error-specific disclaimer
but omits `emergency_action` and `available_providers`. -/
theorem error_payloads_structured (e q t : String) (loc : Option String)
    (dbS : Except String (List Provider))
    (db : String → Except String (List Provider)) (limit : Nat)
    (hist : List Msg) (ctx : Value) (c2 : Except String String) :
    (getVal (recommend_provider_by_symptoms (Except.error e) loc dbS) "error"
        = some (Value.vStr ("Error processing symptoms: " ++ e))
     ∧ getVal (recommend_provider_by_symptoms (Except.error e) loc dbS)
         "recommended_specialties" = some (Value.vList [])
     ∧ getVal (recommend_provider_by_symptoms (Except.error e) loc dbS)
         "reasoning" = some (Value.vStr "")
     ∧ getVal (recommend_provider_by_symptoms (Except.error e) loc dbS)
         "urgency_level" = some (Value.vStr "unknown")
     ∧ getVal (recommend_provider_by_symptoms (Except.error e) loc dbS)
         "disclaimer" = some (Value.vStr triageErrorDisclaimer)
     ∧ getVal (recommend_provider_by_symptoms (Except.error e) loc dbS)
         "emergency_action" = none
     ∧ getVal (recommend_provider_by_symptoms (Except.error e) loc dbS)
         "available_providers" = none)
    ∧ (getVal (semantic_search_providers (Except.error e) db limit) "error"
        = some (Value.vStr ("Error in semantic search: " ++ e))
     ∧ getVal (semantic_search_providers (Except.error e) db limit)
         "understood_intent" = some (Value.vStr "")
     ∧ getVal (semantic_search_providers (Except.error e) db limit)
         "search_terms" = some (Value.vList [])
     ∧ getVal (semantic_search_providers (Except.error e) db limit)
         "recommended_specialties" = some (Value.vList [])
     ∧ getVal (semantic_search_providers (Except.error e) db limit)
         "providers" = some (Value.vProviders [])
     ∧ getVal (semantic_search_providers (Except.error e) db limit)
         "total_found" = some (Value.vNat 0))
    ∧ (getVal (faq_chatbot q hist ctx (Except.error e) c2) "answer"
        = some (Value.vStr ("I apologize, but I encountered an error: " ++ e))
     ∧ getVal (faq_chatbot q hist ctx (Except.error e) c2) "data_retrieved"
        = some ctx
     ∧ getVal (faq_chatbot q hist ctx (Except.error e) c2)
         "follow_up_suggestions" = some (Value.vList [])
     ∧ getVal (faq_chatbot q hist ctx (Except.error e) c2)
         "conversation_history" = some (Value.vMsgs hist)
     ∧ getVal (faq_chatbot q hist ctx (Except.error e) c2) "error"
        = some (Value.vStr e))
    ∧ (getVal (faq_chatbot q hist ctx (Except.ok t) (Except.error e)) "answer"
        = some (Value.vStr ("I apologize, but I encountered an error: " ++ e))
     ∧ getVal (faq_chatbot q hist ctx (Except.ok t) (Except.error e))
         "data_retrieved" = some ctx
     ∧ getVal (faq_chatbot q hist ctx (Except.ok t) (Except.error e))
         "follow_up_suggestions" = some (Value.vList [])
     ∧ getVal (faq_chatbot q hist ctx (Except.ok t) (Except.error e))
         "conversation_history" = some (Value.vMsgs hist)
     ∧ getVal (faq_chatbot q hist ctx (Except.ok t) (Except.error e)) "error"
        = some (Value.vStr e)) := by
  simp [recommend_provider_by_symptoms, semantic_search_providers,
    faq_chatbot, faqErrorResult, getVal]

/-- Claim C4, counterexample: the comma-separated value
`Cardiology,,Neurology` parses to a THREE-element specialty list whose
middle element is the empty string — empty elements after trimming are
kept, not dropped. -/
theorem comma_split_keeps_empty_elements :
    (parseTriage "SPECIALTIES: Cardiology,,Neurology").specialties
      = ["Cardiology", "", "Neurology"]
    ∧ (parseTriage "SPECIALTIES: Cardiology,,Neurology").specialties.length ≠ 2 :=
  ⟨rfl, by decide⟩

/-- Claim C4 as amended: list-valued label lines are split on commas
with each element trimmed, and elements that are empty after trimming
are RETAINED: the parsed list always has exactly one element per
comma-separated group (`length` is preserved, element `i` is the trim of
group `i`), and `Cardiology,,Neurology` yields the three-element list
with an empty middle element in triage, with the same behavior for
`KEY_TERMS` and `SPECIALTIES` in semantic search. -/
theorem comma_split_trims_and_keeps_empties (v : String) (i : Nat) :
    (commaSplitTrim v).length = (pySplit ',' v).length
    ∧ (commaSplitTrim v).getD i "" = pyStrip ((pySplit ',' v).getD i "")
    ∧ (parseTriage "SPECIALTIES: Cardiology,,Neurology").specialties
        = ["Cardiology", "", "Neurology"]
    ∧ (parseSearch "KEY_TERMS: a,,b").key_terms = ["a", "", "b"]
    ∧ (parseSearch "SPECIALTIES: X,, ,Y").specialties = ["X", "", "", "Y"] := by
  refine ⟨by simp [commaSplitTrim], ?_, rfl, rfl, rfl⟩
  have h : (commaSplitTrim v).getD i ""
      = ((pySplit ',' v).map pyStrip).getD i (pyStrip "") := rfl
  rw [h, getD_map]

/-- Claim C5: parsing is total — the embedded parsers are total
functions (the source loop indexes `line[0]` only behind a
non-emptiness guard and splits on `:` only after checking membership,
so no step can raise) — and on any text whose lines carry no recognized
tag (the empty string included) each parser returns its per-task
defaults: empty specialty list, empty reasoning, urgency `medium` and
null emergency action for triage; empty intent, key terms and
specialties for search; the empty suggestion list for the
related-specialties list variant. -/
theorem parsing_total_with_defaults (text : String) (count : Nat)
    (hnone : ∀ l ∈ pySplit '\n' text,
      pyStartsWith (pyStrip l) "SPECIALTIES:" = false
      ∧ pyStartsWith (pyStrip l) "REASONING:" = false
      ∧ pyStartsWith (pyStrip l) "URGENCY:" = false
      ∧ pyStartsWith (pyStrip l) "EMERGENCY_ACTION:" = false
      ∧ pyStartsWith (pyStrip l) "INTENT:" = false
      ∧ pyStartsWith (pyStrip l) "KEY_TERMS:" = false
      ∧ ¬(pyStrip l ≠ "" ∧ ((firstChar (pyStrip l)).isDigit
            ∨ pyStartsWith (pyStrip l) "-"))) :
    parseTriage text = triageDefaults
    ∧ parseSearch text = searchDefaults
    ∧ parseSuggestions text count = []
    ∧ parseTriage "" = triageDefaults
    ∧ parseSearch "" = searchDefaults
    ∧ parseSuggestions "" count = [] := by
  have hempty : (pySplit '\n' "").foldl parseSuggestionLine [] = [] := rfl
  refine ⟨?_, ?_, ?_, rfl, rfl, by simp [parseSuggestions, hempty]⟩
  · exact foldl_fixed parseTriageLine _ (fun l hl acc => by
      obtain ⟨h1, h2, h3, h4, _, _, _⟩ := hnone l hl
      simp [parseTriageLine, h1, h2, h3, h4]) _
  · exact foldl_fixed parseSearchLine _ (fun l hl acc => by
      obtain ⟨h1, _, _, _, h5, h6, _⟩ := hnone l hl
      simp [parseSearchLine, h1, h5, h6]) _
  · have hfold := foldl_fixed parseSuggestionLine (pySplit '\n' text)
      (fun l hl acc => by
        obtain ⟨_, _, _, _, _, _, h7⟩ := hnone l hl
        simp [parseSuggestionLine, h7]) []
    simp [parseSuggestions, hfold]

/-- Claim C5 witness: concrete no-tag inputs. -/
theorem parsing_total_with_defaults_witness :
    parseTriage "hello world\nsecond line" = triageDefaults
    ∧ parseSearch "hello world\nsecond line" = searchDefaults
    ∧ parseSuggestions "hello world\nsecond line" 3 = []
    ∧ parseTriage "" = triageDefaults
    ∧ parseSearch "" = searchDefaults
    ∧ parseSuggestions "" 3 = [] :=
  parsing_total_with_defaults "hello world\nsecond line" 3 (by decide)

/-- Claim C6: the merge inside `semantic_search_providers` concatenates
the per-specialty candidate lists in specialty-iteration order
(`collectMatches`), deduplicates by the provider identifier keeping the
first occurrence (refinement: the source's seen-set loop equals the
spec-worded `dedupSpecFrom []`), truncates to the caller's limit, and
reports `total_found` as the pre-truncation unique count; in particular
candidate lists `[[A,B],[B,C]]` with pairwise distinct identifiers and
`B` repeated yield providers `[A,B,C]` (truncated to the limit) with
`total_found = 3` regardless of the limit. -/
theorem merge_dedup_first_seen (raw : String)
    (db : String → Except String (List Provider)) (limit : Nat)
    (A B C : Provider) (lim2 : Nat)
    (hAB : A.npi ≠ B.npi) (hAC : A.npi ≠ C.npi) (hBC : B.npi ≠ C.npi) :
    (getVal (semantic_search_providers (Except.ok raw) db limit) "providers"
        = some (Value.vProviders ((dedupSpecFrom []
            (collectMatches db (parseSearch (pyStrip raw)).specialties)).take limit))
     ∧ getVal (semantic_search_providers (Except.ok raw) db limit) "total_found"
        = some (Value.vNat (dedupSpecFrom []
            (collectMatches db (parseSearch (pyStrip raw)).specialties)).length))
    ∧ (getVal (semantic_search_providers (Except.ok "SPECIALTIES: S1, S2")
          (fun s => if s = "S1" then Except.ok [A, B]
            else if s = "S2" then Except.ok [B, C] else Except.ok []) lim2)
          "providers" = some (Value.vProviders ([A, B, C].take lim2))
       ∧ getVal (semantic_search_providers (Except.ok "SPECIALTIES: S1, S2")
          (fun s => if s = "S1" then Except.ok [A, B]
            else if s = "S2" then Except.ok [B, C] else Except.ok []) lim2)
          "total_found" = some (Value.vNat 3)) := by
  have hparse : (parseSearch (pyStrip "SPECIALTIES: S1, S2")).specialties
      = ["S1", "S2"] := rfl
  have hcoll : collectMatches
      (fun s => if s = "S1" then Except.ok [A, B]
        else if s = "S2" then Except.ok [B, C] else Except.ok [])
      ["S1", "S2"] = [A, B, B, C] := by
    simp [collectMatches]
  have hdedup : dedupSpecFrom [] [A, B, B, C] = [A, B, C] := by
    simp [dedupSpecFrom, Ne.symm hAB, Ne.symm hAC, Ne.symm hBC]
  refine ⟨⟨?_, ?_⟩, ?_, ?_⟩ <;>
    simp [semantic_search_providers, getVal, uniqueProviders_eq_spec,
      hparse, hcoll, hdedup]

/-- Claim C6 witness: three concrete providers with distinct NPIs,
candidate lists `[[A,B],[B,C]]` and limit 2. -/
theorem merge_dedup_first_seen_witness :
    getVal (semantic_search_providers (Except.ok "SPECIALTIES: S1, S2")
        (fun s => if s = "S1"
            then Except.ok [{ npi := "1", name := "a", specialty := "x",
                              state := "s", city := "c" },
                            { npi := "2", name := "b", specialty := "x",
                              state := "s", city := "c" }]
          else if s = "S2"
            then Except.ok [{ npi := "2", name := "b", specialty := "x",
                              state := "s", city := "c" },
                            { npi := "3", name := "d", specialty := "x",
                              state := "s", city := "c" }]
          else Except.ok []) 2) "total_found" = some (Value.vNat 3) :=
  ((merge_dedup_first_seen "SPECIALTIES: S1, S2" (fun _ => Except.ok []) 0
      { npi := "1", name := "a", specialty := "x", state := "s", city := "c" }
      { npi := "2", name := "b", specialty := "x", state := "s", city := "c" }
      { npi := "3", name := "d", specialty := "x", state := "s", city := "c" }
      2 (by decide) (by decide) (by decide)).2).2

/-- Claim C7: after a successful `faq_chatbot` turn the returned
conversation history has length at most 10, equals the input history
plus the new (user question, assistant answer) pair with the oldest
entries dropped first (a drop from the front of the appended list), and
ends with exactly that pair. -/
theorem conversation_window_invariant (q ansRaw fuRaw : String)
    (hist : List Msg) (ctx : Value) :
    ∃ h2 : List Msg,
      getVal (faq_chatbot q hist ctx (Except.ok ansRaw) (Except.ok fuRaw))
          "conversation_history" = some (Value.vMsgs h2)
      ∧ h2.length ≤ 10
      ∧ h2 = (hist ++ [Msg.mk "user" q,
            Msg.mk "assistant" (pyStrip ansRaw)]).drop
          (hist.length + 2 - 10)
      ∧ ∃ pre : List Msg, h2 = pre ++ [Msg.mk "user" q,
            Msg.mk "assistant" (pyStrip ansRaw)] := by
  by_cases hgt : (hist ++ [Msg.mk "user" q,
      Msg.mk "assistant" (pyStrip ansRaw)]).length > 10
  · refine ⟨(hist ++ [Msg.mk "user" q,
        Msg.mk "assistant" (pyStrip ansRaw)]).drop
          (hist.length + 2 - 10), ?_, ?_, rfl, ?_⟩
    · simp only [faq_chatbot, getVal]
      rw [if_pos hgt]
      simp [List.length_append]
    · simp [List.length_drop]
      omega
    · have hk : hist.length + 2 - 10 ≤ hist.length := by
        simp only [List.length_append] at hgt
        simp at hgt
        omega
      exact ⟨hist.drop (hist.length + 2 - 10),
        List.drop_append_of_le_length hk⟩
  · have hk : hist.length + 2 - 10 = 0 := by
      simp only [List.length_append] at hgt
      simp at hgt
      omega
    refine ⟨hist ++ [Msg.mk "user" q,
        Msg.mk "assistant" (pyStrip ansRaw)],
      ?_, ?_, ?_, ⟨hist, rfl⟩⟩
    · simp only [faq_chatbot, getVal]
      rw [if_neg hgt]
      simp
    · simp at hgt ⊢
      omega
    · rw [hk, List.drop_zero]

/-- Claim C8: when the provider-repository lookup inside
`recommend_provider_by_symptoms` fails (location filter present and
non-empty, parsed specialties non-empty), the failure is recorded as a
`provider_search_error` string field, every other field of the result
equals what the same completion yields without the location lookup, no
`error` field appears (the request is not aborted), and no
`location_checked` field is set. -/
theorem repository_failure_nonfatal (raw loc e : String)
    (dbOther : Except String (List Provider))
    (hloc : loc ≠ "") (hspec : (parseTriage (pyStrip raw)).specialties ≠ []) :
    getVal (recommend_provider_by_symptoms (Except.ok raw) (some loc)
        (Except.error e)) "provider_search_error" = some (Value.vStr e)
    ∧ (∀ k ∈ (["recommended_specialties", "reasoning", "urgency_level",
          "emergency_action", "disclaimer", "available_providers"] : List String),
        getVal (recommend_provider_by_symptoms (Except.ok raw) (some loc)
            (Except.error e)) k
          = getVal (recommend_provider_by_symptoms (Except.ok raw) none dbOther) k)
    ∧ getVal (recommend_provider_by_symptoms (Except.ok raw) (some loc)
        (Except.error e)) "error" = none
    ∧ getVal (recommend_provider_by_symptoms (Except.ok raw) (some loc)
        (Except.error e)) "location_checked" = none := by
  cases hsp : (parseTriage (pyStrip raw)).specialties with
  | nil => exact absurd hsp hspec
  | cons primary rest =>
    refine ⟨?_, ?_, ?_, ?_⟩
    · simp [recommend_provider_by_symptoms, hsp, hloc, getVal_setKey_self]
    · intro k hk
      fin_cases hk <;>
        simp [recommend_provider_by_symptoms, hsp, hloc,
          getVal_setKey_of_ne, getVal]
    · simp [recommend_provider_by_symptoms, hsp, hloc,
        getVal_setKey_of_ne, getVal]
    · simp [recommend_provider_by_symptoms, hsp, hloc,
        getVal_setKey_of_ne, getVal]

/-- Claim C8 witness: concrete completion, location and repository
failure. -/
theorem repository_failure_nonfatal_witness :
    ("TX" : String) ≠ ""
    ∧ (parseTriage (pyStrip "SPECIALTIES: Cardiology")).specialties ≠ []
    ∧ getVal (recommend_provider_by_symptoms
        (Except.ok "SPECIALTIES: Cardiology") (some "TX")
        (Except.error "db down")) "provider_search_error"
      = some (Value.vStr "db down") :=
  ⟨by decide, by decide,
    (repository_failure_nonfatal "SPECIALTIES: Cardiology" "TX" "db down"
      (Except.ok []) (by decide) (by decide)).1⟩

theorem readList_append_lt (heap : List (List Msg)) (v : List Msg) (r : Nat)
    (hr : r < heap.length) : readList (heap ++ [v]) r = readList heap r := by
  rw [readList, readList, List.getD_append _ _ _ _ hr]

theorem readList_append_self (heap : List (List Msg)) (v : List Msg) :
    readList (heap ++ [v]) heap.length = v := by
  simp [readList, List.getD_append_right]

/-- Claim C9: `faq_chatbot` never mutates the caller's history object.
In the heap model of the source's list operations (concatenation and
slicing each allocate a fresh list, nothing writes through the caller's
reference), the updated history lives at a reference distinct from the
caller's, the caller's reference still holds exactly its old elements,
and the new reference holds the appended-and-windowed history. -/
theorem faq_history_no_mutation (heap : List (List Msg)) (r : Nat)
    (q a : String) (hr : r < heap.length) :
    readList (faqAdvanceAlloc heap r q a).1 r = readList heap r
    ∧ (faqAdvanceAlloc heap r q a).2 ≠ r
    ∧ readList (faqAdvanceAlloc heap r q a).1 (faqAdvanceAlloc heap r q a).2
      = (let u := readList heap r ++ [Msg.mk "user" q, Msg.mk "assistant" a]
         if u.length > 10 then u.drop (u.length - 10) else u) := by
  have hkey : readList (heap ++ [readList heap r ++
      [Msg.mk "user" q, Msg.mk "assistant" a]]) heap.length
      = readList heap r ++ [Msg.mk "user" q, Msg.mk "assistant" a] :=
    readList_append_self _ _
  by_cases hgt : (readList heap r ++
      [Msg.mk "user" q, Msg.mk "assistant" a]).length > 10
  · have hr1 : r < (heap ++ [readList heap r ++
        [Msg.mk "user" q, Msg.mk "assistant" a]]).length := by
      simp
      omega
    refine ⟨?_, ?_, ?_⟩
    · simp only [faqAdvanceAlloc, allocList, hkey]
      rw [if_pos hgt]
      simp only [allocList]
      rw [readList_append_lt _ _ _ hr1, readList_append_lt _ _ _ hr]
    · simp only [faqAdvanceAlloc, allocList, hkey]
      rw [if_pos hgt]
      simp
      omega
    · simp only [faqAdvanceAlloc, allocList, hkey]
      rw [if_pos hgt]
      simp only [allocList]
      rw [readList_append_self]
      have hgt2 : 10 < (readList heap r).length + 2 := by simpa using hgt
      simp [if_pos hgt2]
  · refine ⟨?_, ?_, ?_⟩
    · simp only [faqAdvanceAlloc, allocList, hkey]
      rw [if_neg hgt]
      exact readList_append_lt _ _ _ hr
    · simp only [faqAdvanceAlloc, allocList, hkey]
      rw [if_neg hgt]
      omega
    · simp only [faqAdvanceAlloc, allocList, hkey]
      rw [if_neg hgt]
      have hgt2 : ¬10 < (readList heap r).length + 2 := by simpa using hgt
      simp [hkey, if_neg hgt2]

/-- Claim C9 witness: a one-object heap. -/
theorem faq_history_no_mutation_witness :
    (0 : Nat) < ([[]] : List (List Msg)).length
    ∧ readList (faqAdvanceAlloc [[]] 0 "q" "a").1 0 = readList [[]] 0 :=
  ⟨by decide, (faq_history_no_mutation [[]] 0 "q" "a" (by decide)).1⟩

/-- Claim C10: when either completion call inside `faq_chatbot` fails,
the returned `conversation_history` is exactly the input history (the
failed turn is not appended) and `follow_up_suggestions` is the empty
list — a failed turn leaves the conversation state unchanged. -/
theorem failed_turn_preserves_history (q t e : String) (hist : List Msg)
    (ctx : Value) (c2 : Except String String) :
    (getVal (faq_chatbot q hist ctx (Except.error e) c2) "conversation_history"
        = some (Value.vMsgs hist)
     ∧ getVal (faq_chatbot q hist ctx (Except.error e) c2) "follow_up_suggestions"
        = some (Value.vList []))
    ∧ (getVal (faq_chatbot q hist ctx (Except.ok t) (Except.error e))
          "conversation_history" = some (Value.vMsgs hist)
       ∧ getVal (faq_chatbot q hist ctx (Except.ok t) (Except.error e))
          "follow_up_suggestions" = some (Value.vList [])) := by
  simp [faq_chatbot, faqErrorResult, getVal]
